import Mathlib

/-!
Verification of the speedcam motion tracker against its design document.

The development shallowly embeds the two Go source files of the repository:
the data model (Car, CarTrack, TrackPoint, CarMessage, the CarRegister),
the trajectory arithmetic of Car.SpaceTimeTravelled and Car.MiddleMat, the
finalization logic of removeCar, the per frame update and removal phases of
the main loop, the geometric speed conversion, and padRect. Machine floats
of the source are modelled as real numbers, timestamps as rational numbers
of seconds, Go integer arithmetic as Int with truncating division, Go map
values as association lists, and a Go runtime panic as an error value.
-/

/-- Model of image.Point: a 2D integer point. -/
structure Point where
  x : Int
  y : Int
deriving Repr, DecidableEq, Inhabited

/-- Model of image.Rectangle with Min and Max corner points. -/
structure Rect where
  min : Point
  max : Point
deriving Repr, DecidableEq, Inhabited

/-- Model of Rectangle.Dx, the width Max.X - Min.X. -/
def Rect.dx (r : Rect) : Int := r.max.x - r.min.x

/-- Model of Rectangle.Dy, the height Max.Y - Min.Y. -/
def Rect.dy (r : Rect) : Int := r.max.y - r.min.y

/-- Model of distanceBetweenPoints: intX and intY are the absolute values
of the coordinate differences (computed in int, converted to float64), and
the result is the square root of the sum of their squares. -/
noncomputable def distanceBetweenPoints (p1 p2 : Point) : ℝ :=
  Real.sqrt (|((p1.x - p2.x : Int) : ℝ)| ^ 2 + |((p1.y - p2.y : Int) : ℝ)| ^ 2)

/-- Frame snapshots (gocv.Mat) are opaque handles; modelled as naturals. -/
abbrev Mat := Nat

/-- Object identities (satori uuid.UUID) are opaque; modelled as naturals. -/
abbrev UUID := Nat

/-- Model of blob.TrackPoint: a point with its creation timestamp, the
timestamp being a rational number of seconds. -/
structure TrackPoint where
  point : Point
  created : ℚ
deriving Repr, DecidableEq, Inhabited

/-- Model of CarTrack: one trajectory entry, a TrackPoint together with the
retained frame snapshot. -/
structure CarTrack where
  trackPoint : TrackPoint
  mat : Mat
deriving Repr, DecidableEq, Inhabited

/-- Model of Car: the trajectory. The contrib.Tracker handle is external
state; its per frame output rectangle is passed explicitly to the update
phase below. -/
structure Car where
  track : List CarTrack
deriving Repr, DecidableEq, Inhabited

/-- Model of CarMessage together with the uploaded representative image:
the source uploads the middle Mat to S3 under a key and sends the message
carrying that key as ImageURI; the record here carries the Mat itself. -/
structure CarMessage where
  image : Mat
  speed : ℝ
  distance : ℝ

/-- Live object register (CarRegister, a Go map from uuid to *Car),
modelled as an association list with unique keys. -/
abbrev CarRegister := List (UUID × Car)

/-- Distance accumulation loop of Car.SpaceTimeTravelled: sums the distance
between entry i and entry i+1 for i running over range bound. The source
runs this loop with bound len(Track)-2. -/
noncomputable def trackDistanceLoop (track : List CarTrack) (bound : Nat) : ℝ :=
  ((List.range bound).map (fun i =>
    distanceBetweenPoints ((track.getD i default).trackPoint.point)
      ((track.getD (i + 1) default).trackPoint.point))).sum

/-- Cumulative pixel distance as the design document words it: the sum of
the Euclidean distances of all n-1 consecutive pairs of TrackPoints of the
trajectory. Stated for comparison with the loop bound len(Track)-2 that the
source actually uses. -/
noncomputable def specCumulativePixelDistance (track : List CarTrack) : ℝ :=
  trackDistanceLoop track (track.length - 1)

/-- Model of Car.SpaceTimeTravelled: errors on a nil or empty track,
otherwise returns the distance summed by the loop with bound len(Track)-2
together with the elapsed time from the first to the last TrackPoint. -/
noncomputable def Car.SpaceTimeTravelled (c : Car) : Except String (ℝ × ℚ) :=
  if c.track.length = 0 then Except.error "Track length is zero!"
  else
    let lastPoint := (c.track.getD (c.track.length - 1) default).trackPoint
    let firstPoint := (c.track.getD 0 default).trackPoint
    Except.ok (trackDistanceLoop c.track (c.track.length - 2),
      lastPoint.created - firstPoint.created)

/-- Model of Car.MiddleMat: errors on an empty track, otherwise returns the
Mat of the entry at index len(Track)/2. -/
def Car.MiddleMat (c : Car) : Except String Mat :=
  if c.track.length = 0 then Except.error "Track length is zero!"
  else Except.ok ((c.track.getD (c.track.length / 2) default).mat)

/-- Camera field of view in degrees (const fov = 112). -/
def fov : ℝ := 112

/-- Distance from the camera to the road plane (const distance_to_road). -/
def distance_to_road : ℝ := 49.5

/-- Frame width in pixels (const image_width = 640.0). -/
def image_width : ℝ := 640

/-- Model of degToRad: degrees * pi / 180. -/
noncomputable def degToRad (degrees : ℝ) : ℝ := degrees * Real.pi / 180

/-- Physical frame width, from removeCar:
frame_width := 2 * (tan(degToRad(fov * 0.5)) * distance_to_road). -/
noncomputable def frame_width : ℝ :=
  2 * (Real.tan (degToRad (fov * 0.5)) * distance_to_road)

/-- Units per pixel, from removeCar: ftperpixel := frame_width / image_width. -/
noncomputable def ftperpixel : ℝ := frame_width / image_width

/-- Linear pixel to physical conversion of removeCar, ft := d * ftperpixel,
parametrized over the physical frame width and the pixel frame width for
the algebraic claims about the conversion. -/
noncomputable def physicalDistanceOf (frameWidthPhysical frameWidthPixels d : ℝ) : ℝ :=
  d * (frameWidthPhysical / frameWidthPixels)

/-- Finalization decision of removeCar, up to the deletion from the
register. The source calls SpaceTimeTravelled and immediately shadows its
error with the error of MiddleMat (err is reassigned), so only the
MiddleMat error gates emission; on the SpaceTimeTravelled error path the
distance and duration keep the zero values of the Go return. A record is
emitted exactly when the converted distance ft reaches 60, with
mph := (ft / duration.Seconds()) * 0.681818. -/
noncomputable def removeCarMessage (car : Car) : Option CarMessage :=
  let std := match car.SpaceTimeTravelled with
    | Except.ok v => v
    | Except.error _ => ((0 : ℝ), (0 : ℚ))
  match car.MiddleMat with
  | Except.error _ => none
  | Except.ok mat =>
    let ft := std.1 * ftperpixel
    if 60 ≤ ft then
      some { image := mat, speed := (ft / (std.2 : ℝ)) * 0.681818, distance := ft }
    else none

/-- Go map access register[id], returning the first entry of the key. -/
def regFind (register : CarRegister) (i : UUID) : Option Car :=
  match register with
  | [] => none
  | p :: rest => if p.1 = i then some p.2 else regFind rest i

/-- Model of removeCar on the register: when the id is absent the source
reads a nil *Car from the map and the method call on it dereferences nil,
a runtime panic, modelled as an error; otherwise the record decision runs
and the entry is deleted from the register unconditionally. -/
noncomputable def removeCar (register : CarRegister) (id : UUID) :
    Except String (CarRegister × Option CarMessage) :=
  match regFind register id with
  | none => Except.error "runtime error: invalid memory address or nil pointer dereference"
  | some car =>
    Except.ok (register.filter (fun p => p.1 != id), removeCarMessage car)

/-- Per frame removal phase of main, the block after the update loop: when
the tracker object set became empty while cars remain, every car is
finalized and the register is reset; otherwise, for each car id i the
source iterates every tracker object id o and calls removeCar on i whenever
o differs from i. A panic aborts the frame loop; it propagates here as an
error. The collected messages model the sends on carMessageChan. -/
noncomputable def removalPhase (cars : CarRegister) (trackerIDs : List UUID) :
    Except String (CarRegister × List CarMessage) :=
  if trackerIDs.length = 0 ∧ 0 < cars.length then
    do
      let st ← (cars.map Prod.fst).foldlM
        (fun st i => do
          let r ← removeCar st.1 i
          pure (r.1, st.2 ++ r.2.toList))
        (cars, ([] : List CarMessage))
      pure (([] : CarRegister), st.2)
  else
    (cars.map Prod.fst).foldlM
      (fun st i =>
        trackerIDs.foldlM
          (fun st2 o =>
            if o = i then pure st2
            else do
              let r ← removeCar st2.1 i
              pure (r.1, st2.2 ++ r.2.toList))
          st)
      (cars, ([] : List CarMessage))

/-- Model of padRect: pads the rectangle by padAmount on every side and
clamps to the 640x480 frame. The last clamp of the source tests max.Y but
assigns max.X, exactly as written on the line reading
if max.Y > 479 then max.X = 479. -/
def padRect (rect : Rect) (padAmount : Int) : Rect :=
  let min1 : Point := ⟨rect.min.x - padAmount, rect.min.y - padAmount⟩
  let max1 : Point := ⟨rect.max.x + padAmount, rect.max.y + padAmount⟩
  let min2 : Point := ⟨if min1.x < 0 then 0 else min1.x,
    if min1.y < 0 then 0 else min1.y⟩
  let max2x : Int := if max1.x > 639 then 639 else max1.x
  let max3x : Int := if max1.y > 479 then 479 else max2x
  { min := min2, max := ⟨max3x, max1.y⟩ }

/-- Center point computed in the update loop of main:
newPoint := image.Pt((rect.Min.X*2+rect.Dx())/2, (rect.Min.Y*2+rect.Dy())/2),
with Go integer division truncating toward zero. -/
def newPointOf (rect : Rect) : Point :=
  ⟨Int.tdiv (rect.min.x * 2 + rect.dx) 2, Int.tdiv (rect.min.y * 2 + rect.dy) 2⟩

/-- Track extension step of the update loop: the new TrackPoint (with the
retained frame snapshot) is appended only when the refined position is non
degenerate, newPoint.X > 0 and newPoint.Y > 0; otherwise the car is left
unchanged. -/
def updateCarTrack (car : Car) (rect : Rect) (snap : Mat) (now : ℚ) : Car :=
  let newPoint := newPointOf rect
  if 0 < newPoint.x ∧ 0 < newPoint.y then
    { car with track := car.track ++ [⟨⟨newPoint, now⟩, snap⟩] }
  else car

/-- Replacement of the entry of key i of the register, modelling the map
assignment cars[i].Track = append(...). -/
def updateEntry (register : CarRegister) (i : UUID) (car : Car) : CarRegister :=
  register.map (fun p => if p.1 = i then (i, car) else p)

/-- Update loop of main over tracker.Objects: for each tracker id, a nil
car is skipped (the TODO guard of the source); otherwise the refinement
tracker output rectangle for that id decides through updateCarTrack whether
the track is extended. -/
def updatePhase (register : CarRegister) (trackerIDs : List UUID)
    (rects : UUID → Rect) (snap : Mat) (now : ℚ) : CarRegister :=
  trackerIDs.foldl
    (fun reg i =>
      match regFind reg i with
      | none => reg
      | some car => updateEntry reg i (updateCarTrack car (rects i) snap now))
    register

/-- Car with an empty track. -/
def emptyCar : Car := ⟨[]⟩

/-- Car with a single TrackPoint. -/
def oneCar : Car := ⟨[⟨⟨⟨100, 100⟩, 0⟩, 0⟩]⟩

/-- Two point track: (0,0) at second 0, then (3,4) at second 1, with
snapshots 0 and 1. -/
def twoPointTrack : List CarTrack := [⟨⟨⟨0, 0⟩, 0⟩, 0⟩, ⟨⟨⟨3, 4⟩, 1⟩, 1⟩]

/-- Car with three collinear points 400 pixels apart, all created at the
same instant, so the elapsed duration is zero. -/
def carZ : Car := ⟨[⟨⟨⟨0, 0⟩, 5⟩, 0⟩, ⟨⟨⟨400, 0⟩, 5⟩, 1⟩, ⟨⟨⟨800, 0⟩, 5⟩, 2⟩]⟩

/-- Car with three collinear points 400 pixels apart over one second. -/
def carW : Car := ⟨[⟨⟨⟨0, 0⟩, 0⟩, 0⟩, ⟨⟨⟨400, 0⟩, 1⟩, 1⟩, ⟨⟨⟨800, 0⟩, 1⟩, 2⟩]⟩

/-- Record that removeCar emits for carW. -/
noncomputable def rW : CarMessage :=
  { image := (carW.track.getD (carW.track.length / 2) default).mat,
    speed := trackDistanceLoop carW.track (carW.track.length - 2) * ftperpixel /
      (((carW.track.getD (carW.track.length - 1) default).trackPoint.created -
        (carW.track.getD 0 default).trackPoint.created : ℚ) : ℝ) * 0.681818,
    distance := trackDistanceLoop carW.track (carW.track.length - 2) * ftperpixel }

/-- C1: the code sums the consecutive segment distances only up to loop
bound len(Track)-2 and so drops the final segment: on the two point track
from (0,0) to (3,4) it returns cumulative distance 0 (with elapsed time 1),
whereas the sum over all consecutive pairs across the full trajectory,
which the claim specifies, is 5. -/
theorem C1_code_distance_drops_last_segment :
    Car.SpaceTimeTravelled ⟨twoPointTrack⟩ = Except.ok ((0 : ℝ), (1 : ℚ)) ∧
    specCumulativePixelDistance twoPointTrack = 5 := by
  constructor
  · simp [Car.SpaceTimeTravelled, twoPointTrack, trackDistanceLoop]
  · have h : specCumulativePixelDistance twoPointTrack
        = distanceBetweenPoints ⟨0, 0⟩ ⟨3, 4⟩ + 0 := rfl
    have h5 : Real.sqrt 25 = 5 := by
      rw [show (25 : ℝ) = 5 ^ 2 by norm_num, Real.sqrt_sq (by norm_num : (0 : ℝ) ≤ 5)]
    rw [h, add_zero]
    simp only [distanceBetweenPoints]
    norm_num
    exact h5

/-- C10: padRect is claimed to keep the padded rectangle inside the frame,
Max at most (639,479); on the in-frame rectangle Min (10,10) Max (100,400)
with pad 100 the source clamps the X coordinate in the Y overflow branch
(it assigns max.X = 479 where the guard tests max.Y), returning
Max = (479,500), whose Y coordinate 500 exceeds 479. -/
theorem C10_padRect_escapes_frame :
    padRect ⟨⟨10, 10⟩, ⟨100, 400⟩⟩ 100 = ⟨⟨0, 0⟩, ⟨479, 500⟩⟩ ∧
    ¬((padRect ⟨⟨10, 10⟩, ⟨100, 400⟩⟩ 100).max.y ≤ 479) := by
  constructor <;> decide

/-- Numeric lower and upper bounds for the angle of 7 degrees in radians. -/
lemma x7_bounds : (0.1221730 : ℝ) ≤ 7 * Real.pi / 180 ∧
    7 * Real.pi / 180 ≤ (0.1221731 : ℝ) := by
  have h1 := Real.pi_gt_d6
  have h2 := Real.pi_lt_d6
  constructor <;> nlinarith

/-- Taylor bounds for the sine of 7 degrees. -/
lemma sin_x7_bounds : (0.121855 : ℝ) ≤ Real.sin (7 * Real.pi / 180) ∧
    Real.sin (7 * Real.pi / 180) ≤ 0.121883 := by
  have hlo : (0.1221730 : ℝ) ≤ 7 * Real.pi / 180 := x7_bounds.1
  have hhi : 7 * Real.pi / 180 ≤ (0.1221731 : ℝ) := x7_bounds.2
  set x : ℝ := 7 * Real.pi / 180
  have hx0 : (0 : ℝ) ≤ x := by linarith
  have habs : |x| ≤ 1 := by rw [abs_of_nonneg hx0]; linarith
  have hb := Real.sin_bound habs
  rw [abs_of_nonneg hx0] at hb
  have hb2 := abs_le.mp hb
  have h3lo : (0.1221730 : ℝ) ^ 3 ≤ x ^ 3 := pow_le_pow_left₀ (by norm_num) hlo 3
  have h3hi : x ^ 3 ≤ (0.1221731 : ℝ) ^ 3 := pow_le_pow_left₀ hx0 hhi 3
  have h4hi : x ^ 4 ≤ (0.1221731 : ℝ) ^ 4 := pow_le_pow_left₀ hx0 hhi 4
  constructor <;> nlinarith [hb2.1, hb2.2]

/-- Taylor bounds for the cosine of 7 degrees. -/
lemma cos_x7_bounds : (0.992523 : ℝ) ≤ Real.cos (7 * Real.pi / 180) ∧
    Real.cos (7 * Real.pi / 180) ≤ 0.992551 := by
  have hlo : (0.1221730 : ℝ) ≤ 7 * Real.pi / 180 := x7_bounds.1
  have hhi : 7 * Real.pi / 180 ≤ (0.1221731 : ℝ) := x7_bounds.2
  set x : ℝ := 7 * Real.pi / 180
  have hx0 : (0 : ℝ) ≤ x := by linarith
  have habs : |x| ≤ 1 := by rw [abs_of_nonneg hx0]; linarith
  have hb := Real.cos_bound habs
  rw [abs_of_nonneg hx0] at hb
  have hb2 := abs_le.mp hb
  have h2lo : (0.1221730 : ℝ) ^ 2 ≤ x ^ 2 := pow_le_pow_left₀ (by norm_num) hlo 2
  have h2hi : x ^ 2 ≤ (0.1221731 : ℝ) ^ 2 := pow_le_pow_left₀ hx0 hhi 2
  have h4hi : x ^ 4 ≤ (0.1221731 : ℝ) ^ 4 := pow_le_pow_left₀ hx0 hhi 4
  constructor <;> nlinarith [hb2.1, hb2.2]

/-- Numeric bounds for the tangent of 7 degrees. -/
lemma tan_x7_bounds : (0.122769 : ℝ) ≤ Real.tan (7 * Real.pi / 180) ∧
    Real.tan (7 * Real.pi / 180) ≤ 0.122802 := by
  have hs := sin_x7_bounds
  have hc := cos_x7_bounds
  have hcpos : (0 : ℝ) < Real.cos (7 * Real.pi / 180) := by linarith [hc.1]
  rw [Real.tan_eq_sin_div_cos]
  constructor
  · rw [le_div_iff hcpos]
    nlinarith [hs.1, hc.2]
  · rw [div_le_iff hcpos]
    nlinarith [hs.2, hc.1]

/-- Interval propagation through the tangent double angle formula, valid
while the tangent stays inside the unit interval. -/
lemma tan_double_bounds (x p q : ℝ) (hp : 0 ≤ p) (hq : q < 1)
    (hlo : p ≤ Real.tan x) (hhi : Real.tan x ≤ q) :
    2 * p / (1 - p ^ 2) ≤ Real.tan (2 * x) ∧
    Real.tan (2 * x) ≤ 2 * q / (1 - q ^ 2) := by
  have ht0 : (0 : ℝ) ≤ Real.tan x := le_trans hp hlo
  have hden : (0 : ℝ) < 1 - Real.tan x ^ 2 := by nlinarith
  have hdenp : (0 : ℝ) < 1 - p ^ 2 := by nlinarith
  have hdenq : (0 : ℝ) < 1 - q ^ 2 := by nlinarith
  rw [Real.tan_two_mul]
  constructor
  · rw [div_le_div_iff hdenp hden]
    nlinarith [mul_nonneg (mul_nonneg hp ht0) (sub_nonneg.mpr hlo)]
  · rw [div_le_div_iff hden hdenq]
    nlinarith [mul_nonneg (mul_nonneg ht0 (le_trans ht0 hhi)) (sub_nonneg.mpr hhi)]

/-- Numeric bounds for the tangent of 14 degrees. -/
lemma tan14_bounds : (0.249295 : ℝ) ≤ Real.tan (14 * Real.pi / 180) ∧
    Real.tan (14 * Real.pi / 180) ≤ 0.249365 := by
  have h := tan_double_bounds (7 * Real.pi / 180) 0.122769 0.122802
    (by norm_num) (by norm_num) tan_x7_bounds.1 tan_x7_bounds.2
  rw [show 2 * (7 * Real.pi / 180) = 14 * Real.pi / 180 by ring] at h
  constructor
  · refine le_trans (by norm_num) h.1
  · refine le_trans h.2 (by norm_num)

/-- Numeric bounds for the tangent of 28 degrees. -/
lemma tan28_bounds : (0.531628 : ℝ) ≤ Real.tan (28 * Real.pi / 180) ∧
    Real.tan (28 * Real.pi / 180) ≤ 0.531821 := by
  have h := tan_double_bounds (14 * Real.pi / 180) 0.249295 0.249365
    (by norm_num) (by norm_num) tan14_bounds.1 tan14_bounds.2
  rw [show 2 * (14 * Real.pi / 180) = 28 * Real.pi / 180 by ring] at h
  constructor
  · refine le_trans (by norm_num) h.1
  · refine le_trans h.2 (by norm_num)

/-- Numeric bounds for the tangent of 56 degrees, half the field of view. -/
lemma tan56_bounds : (1.48214 : ℝ) ≤ Real.tan (56 * Real.pi / 180) ∧
    Real.tan (56 * Real.pi / 180) ≤ 1.48313 := by
  have h := tan_double_bounds (28 * Real.pi / 180) 0.531628 0.531821
    (by norm_num) (by norm_num) tan28_bounds.1 tan28_bounds.2
  rw [show 2 * (28 * Real.pi / 180) = 56 * Real.pi / 180 by ring] at h
  constructor
  · refine le_trans (by norm_num) h.1
  · refine le_trans h.2 (by norm_num)

/-- Half the field of view converted to radians. -/
lemma degToRad_fov_half : degToRad (fov * 0.5) = 56 * Real.pi / 180 := by
  unfold degToRad fov
  norm_num

/-- Numeric bounds for the physical frame width of the source. -/
lemma frame_width_bounds : (146.73186 : ℝ) ≤ frame_width ∧
    frame_width ≤ 146.82987 := by
  have h := tan56_bounds
  unfold frame_width distance_to_road
  rw [degToRad_fov_half]
  constructor <;> nlinarith [h.1, h.2]

/-- Numeric bounds for the units per pixel factor of the source. -/
lemma ftperpixel_bounds : (0.229268 : ℝ) ≤ ftperpixel ∧
    ftperpixel ≤ 0.229422 := by
  have h := frame_width_bounds
  unfold ftperpixel image_width
  constructor <;> linarith [h.1, h.2]

/-- C6: the geometric speed computation of the source follows the claimed
formulas, frame_width = 2 * tan(fov/2 in radians) * distanceToPlane,
ftperpixel = frame_width / image_width, physical distance d * ftperpixel,
speed = (physical distance / t) * 0.681818; at the claimed configuration
(fov 112, distance 49.5, width 640) with pixel distance 45 and duration one
second the values are within the stated approximations: frame width about
146.9, units per pixel about 0.2296, physical distance about 10.33 and
speed about 7.04. -/
theorem C6_geometry_model_values :
    frame_width = 2 * Real.tan (degToRad (fov / 2)) * distance_to_road ∧
    ftperpixel = frame_width / image_width ∧
    physicalDistanceOf frame_width image_width 45 = 45 * ftperpixel ∧
    |frame_width - 146.9| < 0.2 ∧
    |ftperpixel - 0.2296| < 0.0005 ∧
    |physicalDistanceOf frame_width image_width 45 - 10.33| < 0.02 ∧
    |physicalDistanceOf frame_width image_width 45 / 1 * 0.681818 - 7.04| < 0.01 := by
  have hf := frame_width_bounds
  have hp := ftperpixel_bounds
  refine ⟨?_, rfl, rfl, ?_, ?_, ?_, ?_⟩
  · unfold frame_width
    rw [show fov * 0.5 = fov / 2 by ring]
    ring
  · rw [abs_lt]
    constructor <;> linarith [hf.1, hf.2]
  · rw [abs_lt]
    constructor <;> linarith [hp.1, hp.2]
  · unfold physicalDistanceOf
    rw [show frame_width / image_width = ftperpixel from rfl, abs_lt]
    constructor <;> nlinarith [hp.1, hp.2]
  · unfold physicalDistanceOf
    rw [show frame_width / image_width = ftperpixel from rfl, abs_lt]
    constructor <;> nlinarith [hp.1, hp.2]

/-- Finalization of a car with an empty track emits nothing. -/
lemma removeCarMessage_nil : removeCarMessage ⟨[]⟩ = none := rfl

/-- Reduction of removeCarMessage on a nonempty track: both method calls
succeed and only the threshold test remains. -/
lemma removeCarMessage_cons (a : CarTrack) (l : List CarTrack) :
    removeCarMessage ⟨a :: l⟩
      = if 60 ≤ trackDistanceLoop (a :: l) ((a :: l).length - 2) * ftperpixel
        then some
          { image := ((a :: l).getD ((a :: l).length / 2) default).mat,
            speed := trackDistanceLoop (a :: l) ((a :: l).length - 2) * ftperpixel /
              ((((a :: l).getD ((a :: l).length - 1) default).trackPoint.created -
                ((a :: l).getD 0 default).trackPoint.created : ℚ) : ℝ) * 0.681818,
            distance := trackDistanceLoop (a :: l) ((a :: l).length - 2) * ftperpixel }
        else none := rfl

/-- C9: the unit conversion is scale consistent: doubling the physical
frame width while halving the pixel distance leaves the physical distance
unchanged, for every configuration and pixel distance; at the constants of
the source the parametrized conversion is exactly ft = d * ftperpixel. -/
theorem C9_conversion_scale_consistent :
    (∀ frameWidthPhysical frameWidthPixels d : ℝ,
      physicalDistanceOf (2 * frameWidthPhysical) frameWidthPixels (d / 2)
        = physicalDistanceOf frameWidthPhysical frameWidthPixels d) ∧
    ∀ d : ℝ, physicalDistanceOf frame_width image_width d = d * ftperpixel := by
  constructor
  · intro a b d
    unfold physicalDistanceOf
    ring
  · intro d
    rfl

/-- Emission of removeCar is decided exactly by the 60 unit threshold. -/
lemma removeCarMessage_isSome_iff (c : Car) :
    (removeCarMessage c).isSome = true ↔
      60 ≤ trackDistanceLoop c.track (c.track.length - 2) * ftperpixel := by
  obtain ⟨tr⟩ := c
  cases tr with
  | nil =>
    rw [removeCarMessage_nil]
    have h0 : trackDistanceLoop ([] : List CarTrack)
        (([] : List CarTrack).length - 2) = 0 := rfl
    constructor
    · intro hs
      simp at hs
    · intro hge
      rw [h0, zero_mul] at hge
      linarith
  | cons a l =>
    rw [removeCarMessage_cons]
    by_cases h : 60 ≤ trackDistanceLoop (a :: l) ((a :: l).length - 2) * ftperpixel
    · rw [if_pos h]
      simpa using h
    · rw [if_neg h]
      simpa using h

/-- C5: finalization emits a record exactly when the physical distance,
the cumulative pixel distance computed by the source times ftperpixel,
reaches the configured threshold of 60 units; below the threshold (and on
the empty track, whose computed distance is zero) nothing is emitted, and
one finalization emits at most this one record, the Option value. -/
theorem C5_record_iff_threshold (c : Car) :
    (removeCarMessage c).isSome = true ↔
      60 ≤ trackDistanceLoop c.track (c.track.length - 2) * ftperpixel :=
  removeCarMessage_isSome_iff c

/-- Distance between the points (0,0) and (400,0). -/
lemma dist_0_400 : distanceBetweenPoints ⟨0, 0⟩ ⟨400, 0⟩ = 400 := by
  unfold distanceBetweenPoints
  norm_num
  rw [show (160000 : ℝ) = 400 ^ 2 by norm_num,
    Real.sqrt_sq (by norm_num : (0 : ℝ) ≤ 400)]

/-- Value of the source distance loop on the zero duration car. -/
lemma trackDistanceLoop_carZ :
    trackDistanceLoop carZ.track (carZ.track.length - 2) = 400 := by
  have h : trackDistanceLoop carZ.track (carZ.track.length - 2)
      = distanceBetweenPoints ⟨0, 0⟩ ⟨400, 0⟩ + 0 := rfl
  rw [h, add_zero, dist_0_400]

/-- Value of the source distance loop on carW. -/
lemma trackDistanceLoop_carW :
    trackDistanceLoop carW.track (carW.track.length - 2) = 400 := by
  have h : trackDistanceLoop carW.track (carW.track.length - 2)
      = distanceBetweenPoints ⟨0, 0⟩ ⟨400, 0⟩ + 0 := rfl
  rw [h, add_zero, dist_0_400]

/-- A distance of 400 pixels converts to more than the 60 unit threshold. -/
lemma threshold_400 : (60 : ℝ) ≤ 400 * ftperpixel := by
  have h := ftperpixel_bounds
  linarith [h.1]

/-- C4 counterexample: carZ has three TrackPoints sharing one creation
instant, so its elapsed duration is zero, yet finalization emits a record:
the computed 400 pixel distance converts to more than the 60 unit
threshold, and no guard inspects the duration, so the division of the
speed computation by the zero duration is reached and a record is sent,
where the claim requires a discard with no record. -/
theorem C4_zero_duration_still_emits :
    2 ≤ carZ.track.length ∧
    (carZ.track.getD (carZ.track.length - 1) default).trackPoint.created
      = (carZ.track.getD 0 default).trackPoint.created ∧
    (removeCarMessage carZ).isSome = true := by
  refine ⟨by decide, by decide, ?_⟩
  refine (removeCarMessage_isSome_iff carZ).mpr ?_
  rw [trackDistanceLoop_carZ]
  exact threshold_400

/-- C4 amended: the short trajectory half of the claim holds but the zero
duration guard does not exist in the source: a car whose trajectory has
fewer than 2 points is always discarded with no emitted record (the empty
track through the MiddleMat error, the single point track through its zero
computed distance failing the threshold), and for these the speed division
is never reached; a zero elapsed duration on a longer trajectory is not
guarded against. -/
theorem C4_short_track_discarded (c : Car) (h : c.track.length < 2) :
    removeCarMessage c = none := by
  obtain ⟨tr⟩ := c
  cases tr with
  | nil => exact removeCarMessage_nil
  | cons a l =>
    cases l with
    | nil =>
      rw [removeCarMessage_cons, if_neg ?_]
      have h0 : trackDistanceLoop [a] (([a] : List CarTrack).length - 2) = 0 := rfl
      rw [h0, zero_mul]
      norm_num
    | cons b m =>
      exfalso
      simp only [List.length_cons] at h
      omega

/-- Witness for the amended C4: oneCar has a single TrackPoint and its
finalization emits nothing. -/
theorem C4_short_track_discarded_witness :
    oneCar.track.length < 2 ∧ removeCarMessage oneCar = none :=
  ⟨by decide, C4_short_track_discarded oneCar (by decide)⟩

/-- C8: every record emitted by finalization carries the snapshot of the
trajectory entry at index len(Track)/2 (integer division), the temporal
midpoint of the trajectory, exactly the Mat selected by Car.MiddleMat. -/
theorem C8_snapshot_is_midpoint (c : Car) (r : CarMessage)
    (h : removeCarMessage c = some r) :
    r.image = (c.track.getD (c.track.length / 2) default).mat := by
  obtain ⟨tr⟩ := c
  cases tr with
  | nil =>
    rw [removeCarMessage_nil] at h
    exact absurd h (by simp)
  | cons a l =>
    rw [removeCarMessage_cons] at h
    by_cases hge : (60 : ℝ) ≤ trackDistanceLoop (a :: l) ((a :: l).length - 2) * ftperpixel
    · rw [if_pos hge] at h
      have h2 := Option.some.inj h
      rw [← h2]
    · rw [if_neg hge] at h
      exact absurd h (by simp)

/-- Finalization of carW emits exactly the record rW. -/
lemma removeCarMessage_carW : removeCarMessage carW = some rW := by
  have h : removeCarMessage carW
      = if 60 ≤ trackDistanceLoop carW.track (carW.track.length - 2) * ftperpixel
        then some rW else none := rfl
  rw [h, if_pos ?_]
  rw [trackDistanceLoop_carW]
  exact threshold_400

/-- Witness for C8: the record emitted for carW carries the Mat of the
middle trajectory entry. -/
theorem C8_snapshot_is_midpoint_witness :
    removeCarMessage carW = some rW ∧
    rW.image = (carW.track.getD (carW.track.length / 2) default).mat :=
  ⟨removeCarMessage_carW, C8_snapshot_is_midpoint carW rW removeCarMessage_carW⟩

/-- C2: the removal loop of main finalizes objects whose identity is still
present in the tracker object set: with cars 0 and 1 both live and both
identities present, the iteration for each car sees the other identity
differ from it and calls removeCar, so both cars are finalized and the
register empties, where the claim requires that neither be finalized that
frame (no identity disappeared and the identity set is not empty). -/
theorem C2_present_identity_still_finalized :
    removalPhase [(0, emptyCar), (1, emptyCar)] [0, 1]
      = Except.ok (([] : CarRegister), ([] : List CarMessage)) := rfl

/-- C3: repeated finalization of one ObjectID crashes: with a single live
car of id 2 while the tracker object set holds the identities 0 and 1, the
removal loop calls removeCar for id 2 once per foreign identity; the first
call deletes the entry and the second call reads a nil *Car from the map
and dereferences it, a runtime panic, where the claim requires repeated
finalization attempts not to emit again nor crash. -/
theorem C3_repeated_finalization_crashes :
    removalPhase [(2, emptyCar)] [0, 1]
      = Except.error
        "runtime error: invalid memory address or nil pointer dereference" := rfl

/-- Entry replacement does not change the key list of the register. -/
lemma updateEntry_keys (register : CarRegister) (i : UUID) (car : Car) :
    (updateEntry register i car).map Prod.fst = register.map Prod.fst := by
  unfold updateEntry
  rw [List.map_map]
  refine List.map_congr_left ?_
  intro p _
  simp only [Function.comp_apply]
  by_cases h : p.1 = i
  · rw [if_pos h, h]
  · rw [if_neg h]

/-- The update phase never changes the key list of the register. -/
lemma updatePhase_keys (rects : UUID → Rect) (snap : Mat) (now : ℚ) :
    ∀ (trackerIDs : List UUID) (register : CarRegister),
      (updatePhase register trackerIDs rects snap now).map Prod.fst
        = register.map Prod.fst := by
  intro ids
  induction ids with
  | nil =>
    intro register
    rfl
  | cons j js ih =>
    intro register
    have hstep : updatePhase register (j :: js) rects snap now
        = updatePhase
            (match regFind register j with
              | none => register
              | some car => updateEntry register j (updateCarTrack car (rects j) snap now))
            js rects snap now := rfl
    rw [hstep, ih]
    cases hj : regFind register j with
    | none => rfl
    | some car =>
      exact updateEntry_keys register j (updateCarTrack car (rects j) snap now)

/-- Entry replacement at key i does not affect lookups of other keys. -/
lemma regFind_updateEntry_ne (i j : UUID) (car : Car) (h : j ≠ i) :
    ∀ register : CarRegister,
      regFind (updateEntry register i car) j = regFind register j := by
  intro register
  induction register with
  | nil => rfl
  | cons p l ih =>
    show regFind ((if p.1 = i then (i, car) else p) :: updateEntry l i car) j
        = regFind (p :: l) j
    by_cases hp : p.1 = i
    · rw [if_pos hp]
      show (if i = j then some car else regFind (updateEntry l i car) j)
          = if p.1 = j then some p.2 else regFind l j
      rw [if_neg (fun hij => h hij.symm),
        if_neg (show ¬p.1 = j by rw [hp]; exact fun hij => h hij.symm)]
      exact ih
    · rw [if_neg hp]
      show (if p.1 = j then some p.2 else regFind (updateEntry l i car) j)
          = if p.1 = j then some p.2 else regFind l j
      by_cases hq : p.1 = j
      · rw [if_pos hq, if_pos hq]
      · rw [if_neg hq, if_neg hq]
        exact ih

/-- Entry replacement at a found key makes the lookup return the new value. -/
lemma regFind_updateEntry_self (i : UUID) (newCar : Car) :
    ∀ register : CarRegister, (regFind register i).isSome = true →
      regFind (updateEntry register i newCar) i = some newCar := by
  intro register
  induction register with
  | nil =>
    intro h
    simp [regFind] at h
  | cons p l ih =>
    intro h
    show regFind ((if p.1 = i then (i, newCar) else p) :: updateEntry l i newCar) i
        = some newCar
    by_cases hp : p.1 = i
    · rw [if_pos hp]
      show (if i = i then some newCar else regFind (updateEntry l i newCar) i)
          = some newCar
      rw [if_pos rfl]
    · rw [if_neg hp]
      show (if p.1 = i then some p.2 else regFind (updateEntry l i newCar) i)
          = some newCar
      rw [if_neg hp]
      refine ih ?_
      have hs : regFind (p :: l) i = regFind l i := by
        show (if p.1 = i then some p.2 else regFind l i) = regFind l i
        rw [if_neg hp]
      rw [hs] at h
      exact h

/-- C7: a degenerate refinement tracker output (a computed center whose X
or Y is not positive, as produced by the zero rectangle of a failed MOSSE
update) leaves the trajectory unextended, updateCarTrack returning the car
unchanged; the update phase never changes the id list of the live register,
and the register entry of an id whose rectangle is degenerate is left
completely unchanged, so the failure triggers no removal or finalization
by itself. -/
theorem C7_refinement_failure_recoverable (r : Rect)
    (hdeg : ¬(0 < (newPointOf r).x ∧ 0 < (newPointOf r).y)) :
    (∀ (car : Car) (snap : Mat) (now : ℚ), updateCarTrack car r snap now = car) ∧
    (∀ (register : CarRegister) (trackerIDs : List UUID) (rects : UUID → Rect)
        (snap : Mat) (now : ℚ),
      (updatePhase register trackerIDs rects snap now).map Prod.fst
        = register.map Prod.fst) ∧
    (∀ (register : CarRegister) (trackerIDs : List UUID) (rects : UUID → Rect)
        (snap : Mat) (now : ℚ) (i : UUID), rects i = r →
      regFind (updatePhase register trackerIDs rects snap now) i
        = regFind register i) := by
  have hid : ∀ (car : Car) (snap : Mat) (now : ℚ),
      updateCarTrack car r snap now = car := by
    intro car snap now
    unfold updateCarTrack
    rw [if_neg hdeg]
  refine ⟨hid,
    fun register trackerIDs rects snap now =>
      updatePhase_keys rects snap now trackerIDs register, ?_⟩
  intro register ids rects snap now i hr
  induction ids generalizing register with
  | nil => rfl
  | cons j js ih =>
    have hstep : updatePhase register (j :: js) rects snap now
        = updatePhase
            (match regFind register j with
              | none => register
              | some car => updateEntry register j (updateCarTrack car (rects j) snap now))
            js rects snap now := rfl
    rw [hstep, ih]
    cases hj : regFind register j with
    | none => rfl
    | some car =>
      show regFind (updateEntry register j (updateCarTrack car (rects j) snap now)) i
          = regFind register i
      by_cases hij : j = i
      · subst hij
        rw [hr, hid car snap now]
        have hs : (regFind register j).isSome = true := by rw [hj]; rfl
        rw [regFind_updateEntry_self j car register hs, hj]
      · exact regFind_updateEntry_ne j i (updateCarTrack car (rects j) snap now)
          (Ne.symm hij) register

/-- Witness for C7 at the zero rectangle of a failed tracker update. -/
theorem C7_refinement_failure_recoverable_witness :
    updateCarTrack oneCar ⟨⟨0, 0⟩, ⟨0, 0⟩⟩ 7 2 = oneCar ∧
    (updatePhase [(0, oneCar)] [0] (fun _ => ⟨⟨0, 0⟩, ⟨0, 0⟩⟩) 7 2).map Prod.fst
      = [(0, oneCar)].map Prod.fst ∧
    regFind (updatePhase [(0, oneCar)] [0] (fun _ => ⟨⟨0, 0⟩, ⟨0, 0⟩⟩) 7 2) 0
      = regFind [(0, oneCar)] 0 := by
  have h := C7_refinement_failure_recoverable ⟨⟨0, 0⟩, ⟨0, 0⟩⟩ (by decide)
  exact ⟨h.1 oneCar 7 2,
    h.2.1 [(0, oneCar)] [0] (fun _ => ⟨⟨0, 0⟩, ⟨0, 0⟩⟩) 7 2,
    h.2.2 [(0, oneCar)] [0] (fun _ => ⟨⟨0, 0⟩, ⟨0, 0⟩⟩) 7 2 0 rfl⟩
